import Mathlib

/-
Shallow embedding of SceneManager.cpp: the texture resource table
(CreateGLTexture, BindGLTextures, DestroyGLTextures, FindTextureID,
FindTextureSlot), the material registry (FindMaterial, SetShaderMaterial)
and the transform and shader-state pipeline (SetTransformations,
SetShaderColor, SetShaderTexture, SetTextureUVScale).

Floating-point values are modelled as rationals; the cosine and sine of
each rotation angle (the source computes them through glm::radians and
glm::rotate) are passed as explicit rational parameters, since the claims
under study concern composition order and data flow, not trigonometry.
GPU side effects are modelled as an explicit list of emitted GL commands;
the shader-uniform sink (ShaderManager) is modelled as the list of uniform
writes an operation performs, guarded by a flag standing for the
null-check on m_pShaderManager.
-/

/-- One entry of the fixed texture array m_textureIDs: a tag string and a
GL texture handle, stored as an integer because the source stores -1 as
the empty marker. -/
structure TextureSlot where
  tag : String
  ID : ℤ
deriving DecidableEq

/-- The texture table state of SceneManager: the backing array
m_textureIDs (modelled as a total map from indices, since the source
performs no bounds checking on writes) and the counter m_loadedTextures. -/
structure TextureTable where
  slots : Nat → TextureSlot
  loaded : ℕ

theorem TextureTable.ext {a b : TextureTable}
    (hs : a.slots = b.slots) (hl : a.loaded = b.loaded) : a = b := by
  cases a
  cases b
  simp_all

/-- The table as set up by the SceneManager constructor: every slot holds
tag "/0" and handle -1, and the loaded counter is 0. -/
def initialTable : TextureTable :=
  { slots := fun _ => ⟨"/0", -1⟩, loaded := 0 }

/-- Decoded image data as returned by stbi_load: width, height and the
channel count. -/
structure DecodedImage where
  width : ℕ
  height : ℕ
  colorChannels : ℕ
deriving DecidableEq

/-- Texture wrap modes used by CreateGLTexture. -/
inductive GLWrap where
  | GL_REPEAT
  | GL_CLAMP_TO_EDGE
deriving DecidableEq

/-- Upload formats chosen from the channel count in CreateGLTexture. -/
inductive GLFormat where
  | GL_RGB
  | GL_RGBA
deriving DecidableEq

/-- The GL commands CreateGLTexture issues, in source order. -/
inductive GLOp where
  | genTextures
  | bindTexture (id : ℤ)
  | texParameterWrapS (w : GLWrap)
  | texParameterWrapT (w : GLWrap)
  | texParameterMinFilterLinear
  | texParameterMagFilterLinear
  | texImage2D (format : GLFormat) (width height : ℕ)
  | generateMipmap
deriving DecidableEq

/-- Result of one CreateGLTexture call: the returned bool, the table
after the call, and the GL commands issued during the call. -/
structure LoadResult where
  ok : Bool
  table : TextureTable
  gl : List GLOp

/-- SceneManager::CreateGLTexture. The stbi_load outcome is the `image`
parameter (`none` models a decode failure) and the handle produced by
glGenTextures is the `textureID` parameter. On success the source picks
the wrap mode from the tag (clamp-to-edge for "panda" and "thinkpad",
repeat otherwise), uploads with mipmaps, then registers the texture by
writing the slot at index m_loadedTextures, with no capacity check, and
increments the counter. -/
def createGLTexture (image : Option DecodedImage) (textureID : ℤ)
    (tag : String) (t : TextureTable) : LoadResult :=
  match image with
  | none => ⟨false, t, []⟩
  | some img =>
    let wrapOps : List GLOp :=
      if tag = "panda" ∨ tag = "thinkpad" then
        [.texParameterWrapS .GL_CLAMP_TO_EDGE, .texParameterWrapT .GL_CLAMP_TO_EDGE]
      else
        [.texParameterWrapS .GL_REPEAT, .texParameterWrapT .GL_REPEAT]
    let format : GLFormat := if img.colorChannels = 4 then .GL_RGBA else .GL_RGB
    { ok := true
      table :=
        { slots := fun i => if i = t.loaded then ⟨tag, textureID⟩ else t.slots i
          loaded := t.loaded + 1 }
      gl := [.genTextures, .bindTexture textureID] ++ wrapOps ++
            [.texParameterMinFilterLinear, .texParameterMagFilterLinear,
             .texImage2D format img.width img.height, .generateMipmap,
             .bindTexture 0] }

/-- SceneManager::DestroyGLTextures (state part): for every index below
the loaded counter whose handle is nonzero, the handle is deleted and
reset to 0; finally the counter is reset to 0. -/
def destroyGLTextures (t : TextureTable) : TextureTable :=
  { slots := fun i =>
      if i < t.loaded ∧ (t.slots i).ID ≠ 0 then
        { tag := (t.slots i).tag, ID := 0 }
      else t.slots i
    loaded := 0 }

/-- The while loop of SceneManager::FindTextureID: scan indices from
`index` up to the loaded counter, returning the handle of the first slot
whose tag matches, and -1 when none does. -/
def findTextureIDAux (t : TextureTable) (tag : String) (index : ℕ) : ℤ :=
  if h : index < t.loaded then
    if (t.slots index).tag = tag then (t.slots index).ID
    else findTextureIDAux t tag (index + 1)
  else -1
termination_by t.loaded - index
decreasing_by omega

/-- SceneManager::FindTextureID. -/
def findTextureID (t : TextureTable) (tag : String) : ℤ :=
  findTextureIDAux t tag 0

/-- The while loop of SceneManager::FindTextureSlot: scan indices from
`index` up to the loaded counter, returning the first index whose slot
tag matches, and -1 when none does. -/
def findTextureSlotAux (t : TextureTable) (tag : String) (index : ℕ) : ℤ :=
  if h : index < t.loaded then
    if (t.slots index).tag = tag then (index : ℤ)
    else findTextureSlotAux t tag (index + 1)
  else -1
termination_by t.loaded - index
decreasing_by omega

/-- SceneManager::FindTextureSlot. -/
def findTextureSlot (t : TextureTable) (tag : String) : ℤ :=
  findTextureSlotAux t tag 0

/-- Rational 3-vector. -/
abbrev Vec3 := ℚ × ℚ × ℚ

/-- The OBJECT_MATERIAL struct: diffuse color, specular color, shininess
and the lookup tag. -/
structure ObjectMaterial where
  diffuseColor : Vec3
  specularColor : Vec3
  shininess : ℚ
  tag : String
deriving DecidableEq

/-- The while loop of SceneManager::FindMaterial: the first slot whose
tag matches copies its diffuse color, specular color and shininess into
the out-parameter `material` (the tag field of the out-parameter is never
written); when no slot matches, the out-parameter keeps its incoming
value. -/
def findMaterialScan (mats : List ObjectMaterial) (tag : String)
    (material : ObjectMaterial) : ObjectMaterial :=
  match mats with
  | [] => material
  | m :: rest =>
    if m.tag = tag then
      { material with
          diffuseColor := m.diffuseColor
          specularColor := m.specularColor
          shininess := m.shininess }
    else findMaterialScan rest tag material

/-- SceneManager::FindMaterial. The source returns false only when the
registry is empty; after the scan it returns the constant true, whether
or not the loop found a match (the loop flag bFound is never consulted
for the return value). -/
def findMaterial (mats : List ObjectMaterial) (tag : String)
    (material : ObjectMaterial) : Bool × ObjectMaterial :=
  if mats.length = 0 then (false, material)
  else (true, findMaterialScan mats tag material)

/-- 4x4 rational matrix standing for glm::mat4. -/
abbrev Mat4 := Matrix (Fin 4) (Fin 4) ℚ

/-- glm::scale. -/
def scaleM (v : Vec3) : Mat4 :=
  !![v.1, 0, 0, 0; 0, v.2.1, 0, 0; 0, 0, v.2.2, 0; 0, 0, 0, 1]

/-- glm::rotate about the X axis, parameterized by the cosine and sine of
the angle. -/
def rotateXM (c s : ℚ) : Mat4 :=
  !![1, 0, 0, 0; 0, c, -s, 0; 0, s, c, 0; 0, 0, 0, 1]

/-- glm::rotate about the Y axis, parameterized by the cosine and sine of
the angle. -/
def rotateYM (c s : ℚ) : Mat4 :=
  !![c, 0, s, 0; 0, 1, 0, 0; -s, 0, c, 0; 0, 0, 0, 1]

/-- glm::rotate about the Z axis, parameterized by the cosine and sine of
the angle. -/
def rotateZM (c s : ℚ) : Mat4 :=
  !![c, -s, 0, 0; s, c, 0, 0; 0, 0, 1, 0; 0, 0, 0, 1]

/-- glm::translate. -/
def translateM (p : Vec3) : Mat4 :=
  !![1, 0, 0, p.1; 0, 1, 0, p.2.1; 0, 0, 1, p.2.2; 0, 0, 0, 1]

/-- A value pushed through one typed ShaderManager setter. -/
inductive UniformValue where
  | intVal (z : ℤ)
  | floatVal (q : ℚ)
  | vec2Val (u v : ℚ)
  | vec3Val (v : Vec3)
  | vec4Val (r g b a : ℚ)
  | mat4Val (m : Mat4)
  | samplerVal (z : ℤ)

/-- One uniform write: the uniform name and the value pushed. -/
abbrev UniformWrite := String × UniformValue

/-- SceneManager::SetTransformations. The matrices are built first (as in
the source), then the product translation * rotationZ * rotationY *
rotationX * scale is pushed to the uniform "model" when the shader
manager is non-null; with a null shader manager nothing is written. -/
def setTransformations (hasShader : Bool) (scaleXYZ : Vec3)
    (cx sx cy sy cz sz : ℚ) (positionXYZ : Vec3) : List UniformWrite :=
  let scale := scaleM scaleXYZ
  let rotationX := rotateXM cx sx
  let rotationY := rotateYM cy sy
  let rotationZ := rotateZM cz sz
  let translation := translateM positionXYZ
  let modelView := translation * rotationZ * rotationY * rotationX * scale
  if hasShader then [("model", .mat4Val modelView)] else []

/-- SceneManager::SetShaderColor: when the shader manager is non-null,
pushes bUseTexture := 0 (the C++ bool false through setIntValue) and then
the RGBA color; otherwise nothing. -/
def setShaderColor (hasShader : Bool) (r g b a : ℚ) : List UniformWrite :=
  if hasShader then
    [("bUseTexture", .intVal 0), ("objectColor", .vec4Val r g b a)]
  else []

/-- SceneManager::SetShaderTexture: when the shader manager is non-null,
pushes bUseTexture := 1 and then the FindTextureSlot result as the
sampler value for "objectTexture"; otherwise nothing. -/
def setShaderTexture (hasShader : Bool) (t : TextureTable)
    (textureTag : String) : List UniformWrite :=
  if hasShader then
    [("bUseTexture", .intVal 1),
     ("objectTexture", .samplerVal (findTextureSlot t textureTag))]
  else []

/-- SceneManager::SetTextureUVScale: when the shader manager is non-null,
pushes the 2-component UV scale; otherwise nothing. -/
def setTextureUVScale (hasShader : Bool) (u v : ℚ) : List UniformWrite :=
  if hasShader then [("UVscale", .vec2Val u v)] else []

/-- SceneManager::SetShaderMaterial: when the registry is nonempty, calls
FindMaterial with a freshly declared (uninitialized) OBJECT_MATERIAL
local, modelled by the `junk` parameter, and on a true return pushes the
three material uniforms from that out-parameter. -/
def setShaderMaterial (mats : List ObjectMaterial) (materialTag : String)
    (junk : ObjectMaterial) : List UniformWrite :=
  if mats.length > 0 then
    let r := findMaterial mats materialTag junk
    if r.1 = true then
      [("material.diffuseColor", .vec3Val r.2.diffuseColor),
       ("material.specularColor", .vec3Val r.2.specularColor),
       ("material.shininess", .floatVal r.2.shininess)]
    else []
  else []

/-- The value a uniform holds after a list of writes: the last write to
that name, if any. -/
def lastValue (log : List UniformWrite) (name : String) : Option UniformValue :=
  (log.reverse.find? (fun w => w.1 == name)).map (fun w => w.2)

/-- The model-matrix composition stated by the spec: Translate(position)
x RotateZ x RotateY x RotateX x Scale(scale), written from the words of
the spec for comparison with the source order in setTransformations. -/
def composeModelMatrixSpec (scaleXYZ : Vec3) (cx sx cy sy cz sz : ℚ)
    (positionXYZ : Vec3) : Mat4 :=
  translateM positionXYZ * rotateZM cz sz * rotateYM cy sy *
    rotateXM cx sx * scaleM scaleXYZ

/-- A concrete successfully decoded image used where image content is
irrelevant (the table state never depends on pixel data). -/
def sampleImage : DecodedImage := ⟨4, 4, 3⟩

/-- Successive successful CreateGLTexture calls, one per (tag, handle)
pair, as LoadSceneTextures performs them. -/
def loadAllTextures (entries : List (String × ℤ)) (t : TextureTable) :
    TextureTable :=
  match entries with
  | [] => t
  | (tag, id) :: rest =>
    loadAllTextures rest (createGLTexture (some sampleImage) id tag t).table

/-- The 16 texture tags registered by LoadSceneTextures, in source order,
paired with distinct stand-in GL handles. -/
def sceneTags : List (String × ℤ) :=
  [("keyboard", 1), ("thinkpad", 2), ("hinge", 3), ("wood1", 4),
   ("wood2", 5), ("couch", 6), ("zipper", 7), ("panda", 8),
   ("rug", 9), ("screen", 10), ("pctexture", 11), ("i7", 12),
   ("suitcase", 13), ("window", 14), ("rusticwood", 15), ("whitewood", 16)]

/-- The "plastic" entry of DefineObjectMaterials. -/
def plasticMaterial : ObjectMaterial :=
  { diffuseColor := (6/10, 6/10, 6/10)
    specularColor := (8/10, 8/10, 8/10)
    shininess := 300
    tag := "plastic" }

/-- A stand-in for the uninitialized OBJECT_MATERIAL local declared in
SetShaderMaterial; its field values are arbitrary garbage. -/
def junkMaterial : ObjectMaterial :=
  { diffuseColor := (9, 9, 9)
    specularColor := (8, 8, 8)
    shininess := 7
    tag := "junk" }

/-- Claim C3: for every scale vector, rotation cosine-sine pairs and
position vector, the model matrix pushed by SetTransformations equals
Translate(position) x RotateZ x RotateY x RotateX x Scale(scale), the
order stated by the spec, regardless of call site. -/
theorem setTransformations_compose_order (scaleXYZ : Vec3)
    (cx sx cy sy cz sz : ℚ) (positionXYZ : Vec3) :
    setTransformations true scaleXYZ cx sx cy sy cz sz positionXYZ =
      [("model", .mat4Val
        (composeModelMatrixSpec scaleXYZ cx sx cy sy cz sz positionXYZ))] :=
  rfl

/-- Claim C7: a CreateGLTexture call whose image fails to decode returns
false, issues no GL command (so no GPU upload), and leaves the texture
table exactly as it was. -/
theorem createGLTexture_decodeFailed_noop (textureID : ℤ) (tag : String)
    (t : TextureTable) :
    createGLTexture none textureID tag t = ⟨false, t, []⟩ :=
  rfl

/-- Claim C10: with a null shader-manager pointer, SetTransformations,
SetShaderColor, SetShaderTexture and SetTextureUVScale each perform no
uniform write at all and return normally. -/
theorem nullShader_noop (scaleXYZ : Vec3) (cx sx cy sy cz sz : ℚ)
    (positionXYZ : Vec3) (r g b a : ℚ) (t : TextureTable) (tag : String)
    (u v : ℚ) :
    setTransformations false scaleXYZ cx sx cy sy cz sz positionXYZ = [] ∧
    setShaderColor false r g b a = [] ∧
    setShaderTexture false t tag = [] ∧
    setTextureUVScale false u v = [] :=
  ⟨rfl, rfl, rfl, rfl⟩

/-- Claim C9: on every successful CreateGLTexture call the wrap mode is a
function of the tag alone: both axes get clamp-to-edge exactly when the
tag is "panda" or "thinkpad", and both axes get repeat for every other
tag. -/
theorem createGLTexture_wrapPolicy (img : DecodedImage) (textureID : ℤ)
    (tag : String) (t : TextureTable) :
    (∀ w, GLOp.texParameterWrapS w ∈
        (createGLTexture (some img) textureID tag t).gl ↔
      w = (if tag = "panda" ∨ tag = "thinkpad" then GLWrap.GL_CLAMP_TO_EDGE
           else GLWrap.GL_REPEAT)) ∧
    (∀ w, GLOp.texParameterWrapT w ∈
        (createGLTexture (some img) textureID tag t).gl ↔
      w = (if tag = "panda" ∨ tag = "thinkpad" then GLWrap.GL_CLAMP_TO_EDGE
           else GLWrap.GL_REPEAT)) := by
  by_cases htag : tag = "panda" ∨ tag = "thinkpad" <;>
    constructor <;> intro w <;>
    simp [createGLTexture, htag]

/-- Claim C2 (code evaluation at the failing input): on a nonempty
material registry, FindMaterial with an absent tag still returns true and
leaves the out-parameter untouched, so SetShaderMaterial pushes the three
material uniforms filled from its uninitialized local instead of pushing
nothing. -/
theorem findMaterial_miss_reports_found :
    findMaterial [plasticMaterial] ("missing") junkMaterial =
      (true, junkMaterial) ∧
    setShaderMaterial [plasticMaterial] ("missing") junkMaterial =
      [("material.diffuseColor", .vec3Val junkMaterial.diffuseColor),
       ("material.specularColor", .vec3Val junkMaterial.specularColor),
       ("material.shininess", .floatVal junkMaterial.shininess)] :=
  ⟨rfl, rfl⟩

/-- Claim C1 (code evaluation at the failing input): after the 16 scene
loads fill the table, a 17th CreateGLTexture call with a decodable image
is not rejected: it returns true, issues the full list of 9 GL commands
(including the upload), and mutates the table by advancing the loaded
counter to 17, writing the slot at index 16, past the end of the
16-element source array. -/
theorem createGLTexture_no_capacity_check :
    (loadAllTextures sceneTags initialTable).loaded = 16 ∧
    (createGLTexture (some sampleImage) 17 ("extra")
      (loadAllTextures sceneTags initialTable)).ok = true ∧
    (createGLTexture (some sampleImage) 17 ("extra")
      (loadAllTextures sceneTags initialTable)).table.loaded = 17 ∧
    (createGLTexture (some sampleImage) 17 ("extra")
      (loadAllTextures sceneTags initialTable)).gl.length = 9 :=
  ⟨rfl, rfl, rfl, rfl⟩

/-- When every slot from `index` up to the loaded counter misses the tag,
both scan loops return -1. -/
theorem findAux_nomatch (t : TextureTable) (tag : String) :
    ∀ n index, t.loaded - index = n →
      (∀ j, index ≤ j → j < t.loaded → (t.slots j).tag ≠ tag) →
      findTextureSlotAux t tag index = -1 ∧
        findTextureIDAux t tag index = -1 := by
  intro n
  induction n with
  | zero =>
    intro index hn _
    have hge : ¬ index < t.loaded := by omega
    rw [findTextureSlotAux, findTextureIDAux]
    simp [hge]
  | succ n ih =>
    intro index hn H
    have hlt : index < t.loaded := by omega
    have hne : (t.slots index).tag ≠ tag := H index le_rfl hlt
    have hrec := ih (index + 1) (by omega) (fun j hj hjl => H j (by omega) hjl)
    rw [findTextureSlotAux, findTextureIDAux]
    simp [hlt, hne, hrec.1, hrec.2]

/-- Lifting of the miss lemma to the public lookups. -/
theorem findTexture_nomatch (t : TextureTable) (tag : String)
    (H : ∀ j, j < t.loaded → (t.slots j).tag ≠ tag) :
    findTextureSlot t tag = -1 ∧ findTextureID t tag = -1 :=
  findAux_nomatch t tag (t.loaded - 0) 0 rfl (fun j _ hj => H j hj)

/-- When slot `i` is the first match at or after `index`, both scan loops
return that slot. -/
theorem findAux_found (t : TextureTable) (tag : String) :
    ∀ n index i, t.loaded - index = n → index ≤ i → i < t.loaded →
      (t.slots i).tag = tag →
      (∀ j, index ≤ j → j < i → (t.slots j).tag ≠ tag) →
      findTextureSlotAux t tag index = (i : ℤ) ∧
        findTextureIDAux t tag index = (t.slots i).ID := by
  intro n
  induction n with
  | zero =>
    intro index i hn hii hi _ _
    exact absurd hi (by omega)
  | succ n ih =>
    intro index i hn hii hi htag hprev
    have hlt : index < t.loaded := by omega
    rw [findTextureSlotAux, findTextureIDAux]
    by_cases heq : index = i
    · subst heq
      simp [hlt, htag]
    · have hne : (t.slots index).tag ≠ tag := hprev index le_rfl (by omega)
      have hrec := ih (index + 1) i (by omega) (by omega) hi htag
        (fun j hj hji => hprev j (by omega) hji)
      simp [hlt, hne, hrec.1, hrec.2]

/-- loadAllTextures advances the loaded counter by the number of
entries. -/
theorem loadAll_loaded (entries : List (String × ℤ)) :
    ∀ t, (loadAllTextures entries t).loaded = t.loaded + entries.length := by
  induction entries with
  | nil => intro t; simp [loadAllTextures]
  | cons e rest ih =>
    intro t
    obtain ⟨tag, id⟩ := e
    show (loadAllTextures rest
      (createGLTexture (some sampleImage) id tag t).table).loaded = _
    rw [ih]
    simp [createGLTexture]
    omega

/-- Slots below the incoming loaded counter are untouched by
loadAllTextures. -/
theorem loadAll_slots_keep (entries : List (String × ℤ)) :
    ∀ t i, i < t.loaded →
      (loadAllTextures entries t).slots i = t.slots i := by
  induction entries with
  | nil => intro t i _; rfl
  | cons e rest ih =>
    intro t i hi
    obtain ⟨tag, id⟩ := e
    have hne : i ≠ t.loaded := Nat.ne_of_lt hi
    have h1 : (createGLTexture (some sampleImage) id tag t).table.slots i =
        t.slots i := by
      simp [createGLTexture, hne]
    have h2 : i < (createGLTexture (some sampleImage) id tag t).table.loaded := by
      simp [createGLTexture]
      omega
    show (loadAllTextures rest
      (createGLTexture (some sampleImage) id tag t).table).slots i = _
    rw [ih _ i h2, h1]

/-- The j-th entry loaded lands in slot (t.loaded + j) with its tag and
handle. -/
theorem loadAll_slots_new (entries : List (String × ℤ)) :
    ∀ t j (hj : j < entries.length),
      (loadAllTextures entries t).slots (t.loaded + j) =
        ⟨(entries.get ⟨j, hj⟩).1, (entries.get ⟨j, hj⟩).2⟩ := by
  induction entries with
  | nil =>
    intro t j hj
    exact absurd hj (by simp)
  | cons e rest ih =>
    intro t j hj
    obtain ⟨tag, id⟩ := e
    cases j with
    | zero =>
      have hload : t.loaded <
          (createGLTexture (some sampleImage) id tag t).table.loaded := by
        simp [createGLTexture]
      have hkeep := loadAll_slots_keep rest
        (createGLTexture (some sampleImage) id tag t).table t.loaded hload
      show (loadAllTextures rest
        (createGLTexture (some sampleImage) id tag t).table).slots
          (t.loaded + 0) = _
      rw [Nat.add_zero, hkeep]
      simp [createGLTexture]
    | succ j =>
      have hj2 : j < rest.length := by simpa using hj
      have harith : t.loaded + (j + 1) =
          (createGLTexture (some sampleImage) id tag t).table.loaded + j := by
        simp [createGLTexture]
        omega
      show (loadAllTextures rest
        (createGLTexture (some sampleImage) id tag t).table).slots
          (t.loaded + (j + 1)) = _
      rw [harith, ih _ j hj2]
      simp

/-- Claim C6: DestroyGLTextures resets the loaded counter to 0, running
it twice yields exactly the state of running it once (a second call on
the already-empty table changes nothing), and after it every tag lookup
through FindTextureID and FindTextureSlot returns the -1 sentinel. -/
theorem destroyGLTextures_resets_idempotent (t : TextureTable) :
    (destroyGLTextures t).loaded = 0 ∧
    destroyGLTextures (destroyGLTextures t) = destroyGLTextures t ∧
    (∀ tag, findTextureID (destroyGLTextures t) tag = -1 ∧
      findTextureSlot (destroyGLTextures t) tag = -1) := by
  refine ⟨rfl, ?_, ?_⟩
  · refine TextureTable.ext (funext fun i => ?_) rfl
    simp [destroyGLTextures]
  · intro tag
    have H : ∀ j, j < (destroyGLTextures t).loaded →
        ((destroyGLTextures t).slots j).tag ≠ tag := by
      intro j hj
      exact absurd hj (by simp [destroyGLTextures])
    have h := findTexture_nomatch (destroyGLTextures t) tag H
    exact ⟨h.2, h.1⟩

/-- Claim C8: with the shader manager present, SetShaderTexture on a tag
registered in no slot still sets bUseTexture to true and pushes the -1
not-found sentinel as the sampler unit, returning normally (the model is
a total function; no failure path exists). -/
theorem setShaderTexture_unregistered_sentinel (t : TextureTable)
    (tag : String) (H : ∀ j, j < t.loaded → (t.slots j).tag ≠ tag) :
    setShaderTexture true t tag =
      [("bUseTexture", .intVal 1), ("objectTexture", .samplerVal (-1))] := by
  have h := (findTexture_nomatch t tag H).1
  simp [setShaderTexture, h]

/-- Witness for claim C8 at the freshly constructed table and the tag
"missing". -/
theorem setShaderTexture_unregistered_sentinel_witness :
    (∀ j, j < initialTable.loaded → (initialTable.slots j).tag ≠ "missing") ∧
    setShaderTexture true initialTable ("missing") =
      [("bUseTexture", .intVal 1), ("objectTexture", .samplerVal (-1))] :=
  ⟨fun j hj => absurd hj (Nat.not_lt_zero j),
   setShaderTexture_unregistered_sentinel initialTable ("missing")
     (fun j hj => absurd hj (Nat.not_lt_zero j))⟩

/-- Claim C4: the use-texture flag is last-write-wins between
SetShaderColor and SetShaderTexture: after any prior write log, color
then texture leaves the last bUseTexture write at 1 with the resolved
unit pushed for objectTexture, while texture then color leaves the last
bUseTexture write at 0. -/
theorem useTexture_last_write_wins (L : List UniformWrite) (r g b a : ℚ)
    (t : TextureTable) (tag : String) :
    lastValue (L ++ setShaderColor true r g b a ++ setShaderTexture true t tag)
        "bUseTexture" = some (.intVal 1) ∧
    lastValue (L ++ setShaderColor true r g b a ++ setShaderTexture true t tag)
        "objectTexture" = some (.samplerVal (findTextureSlot t tag)) ∧
    lastValue (L ++ setShaderTexture true t tag ++ setShaderColor true r g b a)
        "bUseTexture" = some (.intVal 0) := by
  refine ⟨?_, ?_, ?_⟩ <;>
    simp [lastValue, setShaderColor, setShaderTexture, List.find?]

/-- Claim C5: after loading at most 16 entries with pairwise distinct
tags into the fresh table, FindTextureSlot and FindTextureID are
first-match lookups consistent with registration order: the i-th tag
resolves to slot index i and to the handle stored in slot i (the i-th
registered handle), and any unregistered tag resolves to the -1 sentinel
in both lookups rather than an exception. -/
theorem texture_lookup_registration_order (entries : List (String × ℤ))
    (hlen : entries.length ≤ 16)
    (hnodup : (entries.map Prod.fst).Nodup) :
    (∀ i (hi : i < entries.length),
      findTextureSlot (loadAllTextures entries initialTable)
          (entries.get ⟨i, hi⟩).1 = (i : ℤ) ∧
      findTextureID (loadAllTextures entries initialTable)
          (entries.get ⟨i, hi⟩).1 =
        ((loadAllTextures entries initialTable).slots i).ID ∧
      ((loadAllTextures entries initialTable).slots i).ID =
        (entries.get ⟨i, hi⟩).2) ∧
    (∀ tag, tag ∉ entries.map Prod.fst →
      findTextureSlot (loadAllTextures entries initialTable) tag = -1 ∧
      findTextureID (loadAllTextures entries initialTable) tag = -1) := by
  have hloaded : (loadAllTextures entries initialTable).loaded =
      entries.length := by
    rw [loadAll_loaded]
    simp [initialTable]
  have hslot : ∀ j (hj : j < entries.length),
      (loadAllTextures entries initialTable).slots j =
        ⟨(entries.get ⟨j, hj⟩).1, (entries.get ⟨j, hj⟩).2⟩ := by
    intro j hj
    have h := loadAll_slots_new entries initialTable j hj
    simpa [initialTable] using h
  have hdist : ∀ i j (hi : i < entries.length) (hj : j < entries.length),
      i ≠ j → (entries.get ⟨i, hi⟩).1 ≠ (entries.get ⟨j, hj⟩).1 := by
    intro i j hi hj hne heq
    have hinj := List.nodup_iff_injective_get.mp hnodup
    have hi2 : i < (entries.map Prod.fst).length := by simpa using hi
    have hj2 : j < (entries.map Prod.fst).length := by simpa using hj
    have hgi : (entries.map Prod.fst).get ⟨i, hi2⟩ =
        (entries.get ⟨i, hi⟩).1 := by simp
    have hgj : (entries.map Prod.fst).get ⟨j, hj2⟩ =
        (entries.get ⟨j, hj⟩).1 := by simp
    have hfin : (⟨i, hi2⟩ : Fin (entries.map Prod.fst).length) = ⟨j, hj2⟩ :=
      hinj (by rw [hgi, hgj, heq])
    exact hne (by simpa using congrArg Fin.val hfin)
  refine ⟨?_, ?_⟩
  · intro i hi
    have htag : ((loadAllTextures entries initialTable).slots i).tag =
        (entries.get ⟨i, hi⟩).1 := by rw [hslot i hi]
    have hid : ((loadAllTextures entries initialTable).slots i).ID =
        (entries.get ⟨i, hi⟩).2 := by rw [hslot i hi]
    have hprev : ∀ j, 0 ≤ j → j < i →
        ((loadAllTextures entries initialTable).slots j).tag ≠
          (entries.get ⟨i, hi⟩).1 := by
      intro j _ hji
      have hj : j < entries.length := lt_trans hji hi
      rw [hslot j hj]
      exact hdist j i hj hi (Nat.ne_of_lt hji)
    have hfound := findAux_found (loadAllTextures entries initialTable)
      (entries.get ⟨i, hi⟩).1
      ((loadAllTextures entries initialTable).loaded - 0) 0 i rfl
      (Nat.zero_le i) (by rw [hloaded]; exact hi) htag hprev
    exact ⟨hfound.1, hfound.2, hid⟩
  · intro tag htag
    have H : ∀ j, j < (loadAllTextures entries initialTable).loaded →
        ((loadAllTextures entries initialTable).slots j).tag ≠ tag := by
      intro j hj
      rw [hloaded] at hj
      rw [hslot j hj]
      intro hEq
      exact htag (hEq ▸ List.mem_map_of_mem Prod.fst (List.get_mem entries _ _))
    exact findTexture_nomatch _ tag H

/-- The end-to-end example from the spec: two textures registered as
"wood1" then "wood2". -/
def witnessEntries : List (String × ℤ) := [("wood1", 5), ("wood2", 7)]

/-- Witness for claim C5 at the two-texture registration example. -/
theorem texture_lookup_registration_order_witness :
    witnessEntries.length ≤ 16 ∧
    (witnessEntries.map Prod.fst).Nodup ∧
    ((∀ i (hi : i < witnessEntries.length),
      findTextureSlot (loadAllTextures witnessEntries initialTable)
          (witnessEntries.get ⟨i, hi⟩).1 = (i : ℤ) ∧
      findTextureID (loadAllTextures witnessEntries initialTable)
          (witnessEntries.get ⟨i, hi⟩).1 =
        ((loadAllTextures witnessEntries initialTable).slots i).ID ∧
      ((loadAllTextures witnessEntries initialTable).slots i).ID =
        (witnessEntries.get ⟨i, hi⟩).2) ∧
    (∀ tag, tag ∉ witnessEntries.map Prod.fst →
      findTextureSlot (loadAllTextures witnessEntries initialTable) tag = -1 ∧
      findTextureID (loadAllTextures witnessEntries initialTable) tag = -1)) :=
  ⟨by decide, by decide,
   texture_lookup_registration_order witnessEntries (by decide) (by decide)⟩
